import Mathlib

/-!
Shallow embedding of the Gaussian plume dispersion core of `src/app.py`:
the Pasquill–Gifford sigma functions `sigma_y`/`sigma_z`, the Gaussian
plume formula `gaussian`, the Turner stability classifier
`compute_stability_class`, and the per-class comparison table `df`.

Python floats are modelled as real numbers (for the classifier, whose
behaviour depends only on order comparisons, rationals).  A Python
function that can raise (`KeyError` on a dict lookup with an unknown key,
`ZeroDivisionError` on a zero denominator) is modelled as returning
`Option`, with `none` standing for the raised exception.
-/

namespace PlumeDispersion

/-- `sigma_y(x, S)` from `src/app.py` lines 10–18: builds a dict keyed by
the six class letters, each value `coef * x * ((1 + 0.0001 * x) ** -0.5)`,
then subscripts it with `S`; an unknown key raises `KeyError` (`none`). -/
noncomputable def sigma_y (x : ℝ) (S : String) : Option ℝ :=
  match S with
  | "A" => some (0.22 * x * (1 + 0.0001 * x) ^ (-0.5 : ℝ))
  | "B" => some (0.16 * x * (1 + 0.0001 * x) ^ (-0.5 : ℝ))
  | "C" => some (0.11 * x * (1 + 0.0001 * x) ^ (-0.5 : ℝ))
  | "D" => some (0.08 * x * (1 + 0.0001 * x) ^ (-0.5 : ℝ))
  | "E" => some (0.06 * x * (1 + 0.0001 * x) ^ (-0.5 : ℝ))
  | "F" => some (0.04 * x * (1 + 0.0001 * x) ^ (-0.5 : ℝ))
  | _ => none

/-- `sigma_z(x, S)` from `src/app.py` lines 21–29: dict of `coef * x`
per class letter, subscripted with `S`; unknown key raises (`none`). -/
noncomputable def sigma_z (x : ℝ) (S : String) : Option ℝ :=
  match S with
  | "A" => some (0.20 * x)
  | "B" => some (0.12 * x)
  | "C" => some (0.08 * x)
  | "D" => some (0.06 * x)
  | "E" => some (0.03 * x)
  | "F" => some (0.016 * x)
  | _ => none

/-- `gaussian(Q, u, H, x, y, sy, sz)` from `src/app.py` lines 35–38:
`(Q / (2*pi*u*sy*sz)) * exp(-(y**2)/(2*sy**2)) * exp(-(H**2)/(2*sz**2))`.
In the reals the three denominators `2*pi*u*sy*sz`, `2*sy**2`, `2*sz**2`
vanish exactly when `u = 0 ∨ sy = 0 ∨ sz = 0`, in which case Python
raises `ZeroDivisionError` (`none`).  The parameter `x` is accepted but
never used, exactly as in the source. -/
noncomputable def gaussian (Q u H x y sy sz : ℝ) : Option ℝ :=
  if u = 0 ∨ sy = 0 ∨ sz = 0 then none
  else
    some (Q / (2 * Real.pi * u * sy * sz) *
      Real.exp (-(y ^ 2) / (2 * sy ^ 2)) *
      Real.exp (-(H ^ 2) / (2 * sz ^ 2)))

/-- `compute_stability_class(wind_speed, cloud_cover)` from `src/app.py`
lines 44–54, including the redundant lower-bound checks of the chained
comparisons (`2 <= wind_speed < 3` etc.).  Total: every input yields a
class letter. -/
def compute_stability_class (wind_speed cloud_cover : ℚ) : String :=
  if wind_speed < 2 then
    if cloud_cover < 40 then "A" else "B"
  else if 2 ≤ wind_speed ∧ wind_speed < 3 then
    if cloud_cover < 40 then "B" else "C"
  else if 3 ≤ wind_speed ∧ wind_speed < 5 then
    if cloud_cover < 40 then "C" else "D"
  else if 5 ≤ wind_speed ∧ wind_speed < 6 then "D"
  else "E"

/-- The `stability_desc` dict from `src/app.py` lines 179–186; lookup of
an unknown key raises `KeyError` (`none`). -/
def stability_desc (S : String) : Option String :=
  match S with
  | "A" => some "Very Unstable"
  | "B" => some "Unstable"
  | "C" => some "Slightly Unstable"
  | "D" => some "Neutral"
  | "E" => some "Slightly Stable"
  | "F" => some "Stable"
  | _ => none

/-- Python's `round(v, 2)` on the sigma values, modelled over ℝ as
rounding to the nearest multiple of 1/100.  (Python breaks exact ties
to even; no value in this development sits on a tie, so the tie
convention of Mathlib's `round` is never exercised.) -/
noncomputable def round2 (v : ℝ) : ℝ := (round (100 * v) : ℤ) / 100

/-- One row of the comparison table of `src/app.py` lines 188–196:
fields `Class`, `Condition`, `σᵧ (m)`, `σz (m)`. -/
structure TableRow where
  cls : String
  condition : String
  sy : ℝ
  sz : ℝ

/-- The table `df` of `src/app.py` lines 188–196: one row per class
letter in the literal order A–F, with the sigma fields rounded to two
decimals by `round(…, 2)`. -/
noncomputable def df (x : ℝ) : Option (List TableRow) :=
  (["A", "B", "C", "D", "E", "F"]).mapM fun S =>
    match stability_desc S, sigma_y x S, sigma_z x S with
    | some d, some vy, some vz => some ⟨S, d, round2 vy, round2 vz⟩
    | _, _, _ => none

/-- The guard of `src/app.py` line 159: the app refuses to compute and
shows an error when any of wind speed, Q, H, x is (exactly) zero.
Negative values are not caught here. -/
def calculate_guard (wind_speed Q H x : ℝ) : Prop :=
  wind_speed = 0 ∨ Q = 0 ∨ H = 0 ∨ x = 0

/-! ## Helper lemmas -/

lemma guard_semantics (Q u H x y sy sz : ℝ) (hu : u ≠ 0) (hsy : sy ≠ 0) (hsz : sz ≠ 0) :
    gaussian Q u H x y sy sz =
      some (Q / (2 * Real.pi * u * sy * sz) *
        Real.exp (-(y ^ 2) / (2 * sy ^ 2)) *
        Real.exp (-(H ^ 2) / (2 * sz ^ 2))) := by
  unfold gaussian
  rw [if_neg]
  push_neg
  exact ⟨hu, hsy, hsz⟩

lemma denom_pos {u sy sz : ℝ} (hu : 0 < u) (hsy : 0 < sy) (hsz : 0 < sz) :
    0 < 2 * Real.pi * u * sy * sz :=
  mul_pos (mul_pos (mul_pos (mul_pos two_pos Real.pi_pos) hu) hsy) hsz

/-! ## C1, C2, C9, C10 : the Gaussian plume formula -/

/-- Claim C1 counterexample: at `Q=1, u=0, H=1, x=1, y=0, σᵧ=1, σ_z=1` the code
raises `ZeroDivisionError` (modelled `none`); it does not return `0`. -/
theorem gaussian_zero_wind_raises :
    gaussian 1 0 1 1 0 1 1 = none ∧ gaussian 1 0 1 1 0 1 1 ≠ some 0 := by
  have h : gaussian 1 0 1 1 0 1 1 = none := if_pos (Or.inl rfl)
  exact ⟨h, by rw [h]; exact fun hc => Option.noConfusion hc⟩

/-- Claim C1 (amended): whenever `u = 0`, `σᵧ = 0` or `σ_z = 0`, `gaussian`
raises a division-by-zero error (modelled as `none`) instead of
returning `0`. -/
theorem gaussian_degenerate_raises (Q u H x y sy sz : ℝ)
    (h : u = 0 ∨ sy = 0 ∨ sz = 0) :
    gaussian Q u H x y sy sz = none := if_pos h

/-- Witness for `gaussian_degenerate_raises` at `u = 0`. -/
theorem gaussian_degenerate_raises_witness :
    ((0 : ℝ) = 0 ∨ (6 : ℝ) = 0 ∨ (7 : ℝ) = 0) ∧ gaussian 2 0 3 4 5 6 7 = none :=
  ⟨Or.inl rfl, gaussian_degenerate_raises 2 0 3 4 5 6 7 (Or.inl rfl)⟩

/-- Claim C2 counterexample: a negative emission rate `Q = -1` passes the app's
only boundary check (line 159 rejects only exact zeroes) and `gaussian`
computes a value — a negative concentration — rather than rejecting. -/
theorem negative_Q_not_rejected :
    ¬ calculate_guard 1 (-1) 1 1 ∧
    (gaussian (-1) 1 1 1 0 1 1).isSome = true ∧
    (gaussian (-1) 1 1 1 0 1 1).getD 0 < 0 := by
  have hg : gaussian (-1) 1 1 1 0 1 1 =
      some ((-1) / (2 * Real.pi * 1 * 1 * 1) *
        Real.exp (-((0:ℝ) ^ 2) / (2 * 1 ^ 2)) *
        Real.exp (-((1:ℝ) ^ 2) / (2 * 1 ^ 2))) :=
    guard_semantics _ _ _ _ _ _ _ one_ne_zero one_ne_zero one_ne_zero
  refine ⟨?_, ?_, ?_⟩
  · unfold calculate_guard
    push_neg
    norm_num
  · rw [hg]; rfl
  · rw [hg, Option.getD_some]
    apply mul_neg_of_neg_of_pos _ (Real.exp_pos _)
    apply mul_neg_of_neg_of_pos _ (Real.exp_pos _)
    apply div_neg_of_neg_of_pos (by norm_num)
    exact denom_pos one_pos one_pos one_pos

/-- Claim C2 (amended): negative `Q` (likewise negative `H`, `x`, `u`) is not
rejected with an `InvalidInput` error anywhere in the code: whenever the
dispersion state is non-degenerate, `gaussian` returns a computed value,
which for `Q < 0` is a (physically nonsensical) negative concentration. -/
theorem gaussian_accepts_negative_Q (Q u H x y sy sz : ℝ)
    (hQ : Q < 0) (hu : 0 < u) (hsy : 0 < sy) (hsz : 0 < sz) :
    (gaussian Q u H x y sy sz).isSome = true ∧
    (gaussian Q u H x y sy sz).getD 0 < 0 := by
  have hg := guard_semantics Q u H x y sy sz (ne_of_gt hu) (ne_of_gt hsy) (ne_of_gt hsz)
  rw [hg, Option.getD_some]
  refine ⟨rfl, ?_⟩
  apply mul_neg_of_neg_of_pos _ (Real.exp_pos _)
  apply mul_neg_of_neg_of_pos _ (Real.exp_pos _)
  exact div_neg_of_neg_of_pos hQ (denom_pos hu hsy hsz)

/-- Witness for `gaussian_accepts_negative_Q`. -/
theorem gaussian_accepts_negative_Q_witness :
    (-2 : ℝ) < 0 ∧ (0 : ℝ) < 3 ∧ (0 : ℝ) < 4 ∧ (0 : ℝ) < 5 ∧
    (gaussian (-2) 3 1 1 0 4 5).isSome = true ∧
    (gaussian (-2) 3 1 1 0 4 5).getD 0 < 0 := by
  refine ⟨by norm_num, by norm_num, by norm_num, by norm_num, ?_⟩
  exact gaussian_accepts_negative_Q (-2) 3 1 1 0 4 5
    (by norm_num) (by norm_num) (by norm_num) (by norm_num)

/-- Claim C9: the concentration is symmetric in the crosswind offset `y`: the
formula depends on `y` only through `y ** 2`. -/
theorem gaussian_symmetric_y (Q u H x y sy sz : ℝ)
    (_hu : 0 < u) (_hsy : 0 < sy) (_hsz : 0 < sz) :
    gaussian Q u H x y sy sz = gaussian Q u H x (-y) sy sz := by
  unfold gaussian
  rw [neg_sq]

/-- Witness for `gaussian_symmetric_y`. -/
theorem gaussian_symmetric_y_witness :
    (0 : ℝ) < 1 ∧ gaussian 1 1 1 1 5 1 1 = gaussian 1 1 1 1 (-5) 1 1 :=
  ⟨one_pos, gaussian_symmetric_y 1 1 1 1 5 1 1 one_pos one_pos one_pos⟩

/-- Claim C10: the result of `gaussian` does not depend on its downwind-distance
argument `x`: the body never mentions `x`, so any two values give
identical results. -/
theorem gaussian_ignores_x (Q u H y sy sz : ℝ)
    (_hu : 0 < u) (_hsy : 0 < sy) (_hsz : 0 < sz) (x1 x2 : ℝ) :
    gaussian Q u H x1 y sy sz = gaussian Q u H x2 y sy sz := rfl

/-- Witness for `gaussian_ignores_x`. -/
theorem gaussian_ignores_x_witness :
    (0 : ℝ) < 1 ∧ gaussian 1 1 1 7 0 1 1 = gaussian 1 1 1 42 0 1 1 :=
  ⟨one_pos, gaussian_ignores_x 1 1 1 0 1 1 one_pos one_pos one_pos 7 42⟩

/-! ## C4 : the Turner stability classifier -/

/-- Claim C4: `compute_stability_class` implements the banded Turner rule with
cloud-cover cutoff 40: wind < 2 gives A/B, wind in [2,3) gives B/C,
wind in [3,5) gives C/D, wind in [5,6) gives D, wind ≥ 6 gives E; in
particular `classify(1.5,30) = A`, `classify(2.5,50) = C` and
`classify(6.5, c) = E` for every cloud cover `c`. -/
theorem classify_bands (w c : ℚ) :
    (w < 2 → compute_stability_class w c = if c < 40 then "A" else "B") ∧
    (2 ≤ w → w < 3 → compute_stability_class w c = if c < 40 then "B" else "C") ∧
    (3 ≤ w → w < 5 → compute_stability_class w c = if c < 40 then "C" else "D") ∧
    (5 ≤ w → w < 6 → compute_stability_class w c = "D") ∧
    (6 ≤ w → compute_stability_class w c = "E") ∧
    compute_stability_class 1.5 30 = "A" ∧
    compute_stability_class 2.5 50 = "C" ∧
    ∀ cc : ℚ, compute_stability_class 6.5 cc = "E" := by
  refine ⟨?_, ?_, ?_, ?_, ?_, ?_, ?_, ?_⟩
  · intro h
    unfold compute_stability_class
    rw [if_pos h]
  · intro h1 h2
    unfold compute_stability_class
    rw [if_neg (not_lt.mpr h1), if_pos ⟨h1, h2⟩]
  · intro h1 h2
    unfold compute_stability_class
    rw [if_neg (by linarith : ¬ w < 2),
      if_neg (by rintro ⟨-, h3⟩; linarith), if_pos ⟨h1, h2⟩]
  · intro h1 h2
    unfold compute_stability_class
    rw [if_neg (by linarith : ¬ w < 2),
      if_neg (by rintro ⟨-, h3⟩; linarith),
      if_neg (by rintro ⟨-, h3⟩; linarith), if_pos ⟨h1, h2⟩]
  · intro h1
    unfold compute_stability_class
    rw [if_neg (by linarith : ¬ w < 2),
      if_neg (by rintro ⟨-, h3⟩; linarith),
      if_neg (by rintro ⟨-, h3⟩; linarith),
      if_neg (by rintro ⟨-, h3⟩; linarith)]
  · norm_num [compute_stability_class]
  · norm_num [compute_stability_class]
  · intro cc
    unfold compute_stability_class
    rw [if_neg (by norm_num), if_neg (by norm_num), if_neg (by norm_num),
      if_neg (by norm_num)]

/-- Witness for `classify_bands`, exercising each cited band instance. -/
theorem classify_bands_witness :
    ((1.5 : ℚ) < 2 ∧ compute_stability_class 1.5 30 = if (30 : ℚ) < 40 then "A" else "B") ∧
    ((2 : ℚ) ≤ 2.5 ∧ (2.5 : ℚ) < 3 ∧
      compute_stability_class 2.5 50 = if (50 : ℚ) < 40 then "B" else "C") ∧
    ((6 : ℚ) ≤ 6.5 ∧ compute_stability_class 6.5 77 = "E") :=
  ⟨⟨by norm_num, (classify_bands 1.5 30).1 (by norm_num)⟩,
   ⟨by norm_num, by norm_num,
    (classify_bands 2.5 50).2.1 (by norm_num) (by norm_num)⟩,
   ⟨by norm_num, (classify_bands 6.5 77).2.2.2.2.1 (by norm_num)⟩⟩

/-! ## Sigma helper lemmas -/

lemma base_pos {x : ℝ} (hx : 0 ≤ x) : (0 : ℝ) < 1 + 0.0001 * x := by nlinarith

lemma corr_pos {x : ℝ} (hx : 0 ≤ x) : 0 < (1 + 0.0001 * x) ^ (-0.5 : ℝ) :=
  Real.rpow_pos_of_pos (base_pos hx) _

lemma rpow_neg_half_eq {x : ℝ} (hx : 0 ≤ x) :
    (1 + 0.0001 * x) ^ (-0.5 : ℝ) = (Real.sqrt (1 + 0.0001 * x))⁻¹ := by
  rw [show (-0.5 : ℝ) = -(1 / 2) by norm_num, Real.rpow_neg (base_pos hx).le,
    ← Real.sqrt_eq_rpow]

lemma syCore_mono {x1 x2 : ℝ} (h0 : 0 ≤ x1) (h12 : x1 ≤ x2) :
    x1 * (1 + 0.0001 * x1) ^ (-0.5 : ℝ) ≤ x2 * (1 + 0.0001 * x2) ^ (-0.5 : ℝ) := by
  have h02 : 0 ≤ x2 := h0.trans h12
  rw [rpow_neg_half_eq h0, rpow_neg_half_eq h02, ← div_eq_mul_inv, ← div_eq_mul_inv]
  have hs1 : 0 < Real.sqrt (1 + 0.0001 * x1) := Real.sqrt_pos.mpr (base_pos h0)
  have hs2 : 0 < Real.sqrt (1 + 0.0001 * x2) := Real.sqrt_pos.mpr (base_pos h02)
  rw [div_le_div_iff₀ hs1 hs2]
  have e1 : x1 * Real.sqrt (1 + 0.0001 * x2) = Real.sqrt (x1 ^ 2 * (1 + 0.0001 * x2)) := by
    rw [Real.sqrt_mul (sq_nonneg x1), Real.sqrt_sq h0]
  have e2 : x2 * Real.sqrt (1 + 0.0001 * x1) = Real.sqrt (x2 ^ 2 * (1 + 0.0001 * x1)) := by
    rw [Real.sqrt_mul (sq_nonneg x2), Real.sqrt_sq h02]
  rw [e1, e2]
  apply Real.sqrt_le_sqrt
  nlinarith [mul_nonneg (mul_nonneg h0 h02) (sub_nonneg.mpr h12),
    mul_nonneg (add_nonneg h0 h02) (sub_nonneg.mpr h12)]

lemma syVal_nonneg (a : ℝ) (ha : 0 ≤ a) {x : ℝ} (hx : 0 ≤ x) :
    0 ≤ a * x * (1 + 0.0001 * x) ^ (-0.5 : ℝ) :=
  mul_nonneg (mul_nonneg ha hx) (corr_pos hx).le

/-! ## C5, C6, C7, C8 : the dispersion coefficients -/

/-- Claim C5: `sigma_y` realises `a(S)·x·(1+0.0001·x)^(−0.5)` with
`a(A..F) = (0.22, 0.16, 0.11, 0.08, 0.06, 0.04)` and `sigma_z` realises
`b(S)·x` with `b(A..F) = (0.20, 0.12, 0.08, 0.06, 0.03, 0.016)`; for
`x ≥ 0` every defined value is non-negative, and at `x = 0` every
defined value is `0`. -/
theorem sigma_formulas (x : ℝ) (hx : 0 ≤ x) :
    (sigma_y x "A" = some (0.22 * x * (1 + 0.0001 * x) ^ (-0.5 : ℝ)) ∧
     sigma_y x "B" = some (0.16 * x * (1 + 0.0001 * x) ^ (-0.5 : ℝ)) ∧
     sigma_y x "C" = some (0.11 * x * (1 + 0.0001 * x) ^ (-0.5 : ℝ)) ∧
     sigma_y x "D" = some (0.08 * x * (1 + 0.0001 * x) ^ (-0.5 : ℝ)) ∧
     sigma_y x "E" = some (0.06 * x * (1 + 0.0001 * x) ^ (-0.5 : ℝ)) ∧
     sigma_y x "F" = some (0.04 * x * (1 + 0.0001 * x) ^ (-0.5 : ℝ))) ∧
    (sigma_z x "A" = some (0.20 * x) ∧
     sigma_z x "B" = some (0.12 * x) ∧
     sigma_z x "C" = some (0.08 * x) ∧
     sigma_z x "D" = some (0.06 * x) ∧
     sigma_z x "E" = some (0.03 * x) ∧
     sigma_z x "F" = some (0.016 * x)) ∧
    (∀ S v, sigma_y x S = some v → 0 ≤ v) ∧
    (∀ S v, sigma_z x S = some v → 0 ≤ v) ∧
    (∀ S v, sigma_y 0 S = some v → v = 0) ∧
    (∀ S v, sigma_z 0 S = some v → v = 0) := by
  refine ⟨⟨rfl, rfl, rfl, rfl, rfl, rfl⟩, ⟨rfl, rfl, rfl, rfl, rfl, rfl⟩,
    ?_, ?_, ?_, ?_⟩
  · intro S v h
    unfold sigma_y at h
    split at h <;> simp only [Option.some.injEq, reduceCtorEq] at h <;>
      rw [← h] <;> exact syVal_nonneg _ (by norm_num) hx
  · intro S v h
    unfold sigma_z at h
    split at h <;> simp only [Option.some.injEq, reduceCtorEq] at h <;>
      rw [← h] <;> nlinarith
  · intro S v h
    unfold sigma_y at h
    split at h <;> simp only [Option.some.injEq, reduceCtorEq] at h <;>
      rw [← h] <;> norm_num
  · intro S v h
    unfold sigma_z at h
    split at h <;> simp only [Option.some.injEq, reduceCtorEq] at h <;>
      rw [← h] <;> norm_num

/-- Witness for `sigma_formulas` at `x = 2`. -/
theorem sigma_formulas_witness :
    (0 : ℝ) ≤ 2 ∧
    ((sigma_y 2 "A" = some (0.22 * 2 * (1 + 0.0001 * 2) ^ (-0.5 : ℝ)) ∧
      sigma_y 2 "B" = some (0.16 * 2 * (1 + 0.0001 * 2) ^ (-0.5 : ℝ)) ∧
      sigma_y 2 "C" = some (0.11 * 2 * (1 + 0.0001 * 2) ^ (-0.5 : ℝ)) ∧
      sigma_y 2 "D" = some (0.08 * 2 * (1 + 0.0001 * 2) ^ (-0.5 : ℝ)) ∧
      sigma_y 2 "E" = some (0.06 * 2 * (1 + 0.0001 * 2) ^ (-0.5 : ℝ)) ∧
      sigma_y 2 "F" = some (0.04 * 2 * (1 + 0.0001 * 2) ^ (-0.5 : ℝ))) ∧
     (sigma_z 2 "A" = some (0.20 * 2) ∧
      sigma_z 2 "B" = some (0.12 * 2) ∧
      sigma_z 2 "C" = some (0.08 * 2) ∧
      sigma_z 2 "D" = some (0.06 * 2) ∧
      sigma_z 2 "E" = some (0.03 * 2) ∧
      sigma_z 2 "F" = some (0.016 * 2)) ∧
     (∀ S v, sigma_y 2 S = some v → 0 ≤ v) ∧
     (∀ S v, sigma_z 2 S = some v → 0 ≤ v) ∧
     (∀ S v, sigma_y 0 S = some v → v = 0) ∧
     (∀ S v, sigma_z 0 S = some v → v = 0)) :=
  ⟨by norm_num, sigma_formulas 2 (by norm_num)⟩

/-- Claim C6: a class token outside A–F makes both coefficient lookups raise
`KeyError` (modelled `none`); no default coefficient is ever used. -/
theorem invalid_class_raises (S : String)
    (hS : S ∉ ["A", "B", "C", "D", "E", "F"]) (x : ℝ) :
    sigma_y x S = none ∧ sigma_z x S = none := by
  constructor
  · unfold sigma_y
    split <;> simp_all
  · unfold sigma_z
    split <;> simp_all

/-- Witness for `invalid_class_raises` at the unknown token "G". -/
theorem invalid_class_raises_witness :
    ("G" ∉ ["A", "B", "C", "D", "E", "F"]) ∧
    (sigma_y 3 "G" = none ∧ sigma_z 3 "G" = none) :=
  ⟨by decide, invalid_class_raises "G" (by decide) 3⟩

/-- Claim C7: for each fixed class letter, `sigma_y` and `sigma_z` are
monotonically non-decreasing in `x` over `x ≥ 0`. -/
theorem sigma_monotone (S : String) (hS : S ∈ ["A", "B", "C", "D", "E", "F"])
    (x1 x2 : ℝ) (h0 : 0 ≤ x1) (h12 : x1 ≤ x2) :
    (sigma_y x1 S).getD 0 ≤ (sigma_y x2 S).getD 0 ∧
    (sigma_z x1 S).getD 0 ≤ (sigma_z x2 S).getD 0 := by
  have hcore := syCore_mono h0 h12
  fin_cases hS <;> refine ⟨?_, ?_⟩ <;>
    simp only [sigma_y, sigma_z, Option.getD_some] <;> nlinarith [hcore]

/-- Witness for `sigma_monotone` on class A between `x = 0` and `x = 1`. -/
theorem sigma_monotone_witness :
    ("A" ∈ ["A", "B", "C", "D", "E", "F"]) ∧ (0 : ℝ) ≤ 0 ∧ (0 : ℝ) ≤ 1 ∧
    ((sigma_y 0 "A").getD 0 ≤ (sigma_y 1 "A").getD 0 ∧
     (sigma_z 0 "A").getD 0 ≤ (sigma_z 1 "A").getD 0) :=
  ⟨by decide, le_refl 0, zero_le_one,
   sigma_monotone "A" (by decide) 0 1 (le_refl 0) zero_le_one⟩

/-- Claim C8: for fixed `x > 0` the six per-class spreads are strictly
decreasing along the instability order A > B > C > D > E > F, for both
`sigma_y` and `sigma_z`. -/
theorem sigma_class_order (x : ℝ) (hx : 0 < x) :
    ((sigma_y x "A").getD 0 > (sigma_y x "B").getD 0 ∧
     (sigma_y x "B").getD 0 > (sigma_y x "C").getD 0 ∧
     (sigma_y x "C").getD 0 > (sigma_y x "D").getD 0 ∧
     (sigma_y x "D").getD 0 > (sigma_y x "E").getD 0 ∧
     (sigma_y x "E").getD 0 > (sigma_y x "F").getD 0) ∧
    ((sigma_z x "A").getD 0 > (sigma_z x "B").getD 0 ∧
     (sigma_z x "B").getD 0 > (sigma_z x "C").getD 0 ∧
     (sigma_z x "C").getD 0 > (sigma_z x "D").getD 0 ∧
     (sigma_z x "D").getD 0 > (sigma_z x "E").getD 0 ∧
     (sigma_z x "E").getD 0 > (sigma_z x "F").getD 0) := by
  have hxr : 0 < x * (1 + 0.0001 * x) ^ (-0.5 : ℝ) := mul_pos hx (corr_pos hx.le)
  refine ⟨⟨?_, ?_, ?_, ?_, ?_⟩, ⟨?_, ?_, ?_, ?_, ?_⟩⟩ <;>
    simp only [sigma_y, sigma_z, Option.getD_some] <;> nlinarith [hxr, hx]

/-- Witness for `sigma_class_order` at `x = 1`. -/
theorem sigma_class_order_witness :
    (0 : ℝ) < 1 ∧
    (((sigma_y 1 "A").getD 0 > (sigma_y 1 "B").getD 0 ∧
      (sigma_y 1 "B").getD 0 > (sigma_y 1 "C").getD 0 ∧
      (sigma_y 1 "C").getD 0 > (sigma_y 1 "D").getD 0 ∧
      (sigma_y 1 "D").getD 0 > (sigma_y 1 "E").getD 0 ∧
      (sigma_y 1 "E").getD 0 > (sigma_y 1 "F").getD 0) ∧
     ((sigma_z 1 "A").getD 0 > (sigma_z 1 "B").getD 0 ∧
      (sigma_z 1 "B").getD 0 > (sigma_z 1 "C").getD 0 ∧
      (sigma_z 1 "C").getD 0 > (sigma_z 1 "D").getD 0 ∧
      (sigma_z 1 "D").getD 0 > (sigma_z 1 "E").getD 0 ∧
      (sigma_z 1 "E").getD 0 > (sigma_z 1 "F").getD 0)) :=
  ⟨one_pos, sigma_class_order 1 one_pos⟩

/-! ## C3 : the per-class comparison table -/

lemma round2_nonneg {v : ℝ} (hv : 0 ≤ v) : 0 ≤ round2 v := by
  unfold round2
  apply div_nonneg _ (by norm_num)
  rw [round_eq]
  have h : (0 : ℝ) ≤ 100 * v + 1 / 2 := by linarith
  exact_mod_cast Int.le_floor.mpr (by exact_mod_cast h)

/-- Claim C3 counterexample: at `x = 1` the table's class-F `σz` field is the
rounded value `0.02`, while `sigma_z(1, "F") = 0.016`; the table fields
do not match the section-4.2 values exactly. -/
theorem df_field_rounded :
    (((df 1).getD []).map TableRow.sz).getLast? = some 0.02 ∧
    sigma_z 1 "F" = some 0.016 ∧ (0.02 : ℝ) ≠ 0.016 := by
  refine ⟨?_, ?_, by norm_num⟩
  · show some (round2 (0.016 * 1)) = some 0.02
    norm_num [round2, round_eq]
  · show some ((0.016 : ℝ) * 1) = some 0.016
    norm_num

/-- Claim C3 (amended): for every `x ≥ 0` the table has exactly 6 rows, in the
canonical order A,B,C,D,E,F, and each row's sigma fields are the
section-4.2 values of `sigma_y`/`sigma_z` rounded to two decimals
(`round(…, 2)`), hence non-negative — not the exact values. -/
theorem df_rows (x : ℝ) (hx : 0 ≤ x) :
    ∃ rows : List TableRow,
      df x = some rows ∧
      rows.map TableRow.cls = ["A", "B", "C", "D", "E", "F"] ∧
      rows.length = 6 ∧
      ∀ r ∈ rows, ∃ vy vz,
        sigma_y x r.cls = some vy ∧ sigma_z x r.cls = some vz ∧
        r.sy = round2 vy ∧ r.sz = round2 vz ∧ 0 ≤ r.sy ∧ 0 ≤ r.sz := by
  refine ⟨_, rfl, rfl, rfl, ?_⟩
  intro r hr
  have hz : ∀ b : ℝ, 0 ≤ b → 0 ≤ round2 (b * x) :=
    fun b hb => round2_nonneg (mul_nonneg hb hx)
  have hy : ∀ a : ℝ, 0 ≤ a → 0 ≤ round2 (a * x * (1 + 0.0001 * x) ^ (-0.5 : ℝ)) :=
    fun a ha => round2_nonneg (syVal_nonneg a ha hx)
  fin_cases hr
  · exact ⟨_, _, rfl, rfl, rfl, rfl, hy 0.22 (by norm_num), hz 0.20 (by norm_num)⟩
  · exact ⟨_, _, rfl, rfl, rfl, rfl, hy 0.16 (by norm_num), hz 0.12 (by norm_num)⟩
  · exact ⟨_, _, rfl, rfl, rfl, rfl, hy 0.11 (by norm_num), hz 0.08 (by norm_num)⟩
  · exact ⟨_, _, rfl, rfl, rfl, rfl, hy 0.08 (by norm_num), hz 0.06 (by norm_num)⟩
  · exact ⟨_, _, rfl, rfl, rfl, rfl, hy 0.06 (by norm_num), hz 0.03 (by norm_num)⟩
  · exact ⟨_, _, rfl, rfl, rfl, rfl, hy 0.04 (by norm_num), hz 0.016 (by norm_num)⟩

/-- Witness for `df_rows` at `x = 5`. -/
theorem df_rows_witness :
    (0 : ℝ) ≤ 5 ∧
    ∃ rows : List TableRow,
      df 5 = some rows ∧
      rows.map TableRow.cls = ["A", "B", "C", "D", "E", "F"] ∧
      rows.length = 6 ∧
      ∀ r ∈ rows, ∃ vy vz,
        sigma_y 5 r.cls = some vy ∧ sigma_z 5 r.cls = some vz ∧
        r.sy = round2 vy ∧ r.sz = round2 vz ∧ 0 ≤ r.sy ∧ 0 ≤ r.sz :=
  ⟨by norm_num, df_rows 5 (by norm_num)⟩

end PlumeDispersion
